import Mathlib

/-!
Shallow embedding of the project-node resolution engine in
`src/snapshot_middleware/project.rs`: the functions `snapshot_project`,
`snapshot_project_node` and `infer_class_name`, together with the data
model they operate on, followed by theorems about the claims.

External collaborators (the filesystem snapshotter `snapshot_from_vfs`,
the class-metadata provider `rbx_reflection_database`, the property
resolver `UnresolvedValue::resolve` and the project loader
`Project::load_from_slice`) are modelled as function parameters collected
in the `Externals` structure.  Raw (unresolved) property values and
resolved property values are modelled as opaque `String` data.
-/

set_option autoImplicit false

/-- A filesystem path, modelled as an absolute/relative flag plus a list of
components.  `parent` mirrors Rust `Path::parent`, which returns `None`
exactly when there is no parent component (the root path `/` or the empty
path); `join` mirrors `Path::join`, which replaces the base when the
argument is absolute. -/
structure FsPath where
  absolute : Bool
  components : List String
deriving DecidableEq, Repr

def FsPath.isRelative (p : FsPath) : Bool := !p.absolute

def FsPath.parent (p : FsPath) : Option FsPath :=
  match p.components with
  | [] => none
  | _ => some ⟨p.absolute, p.components.dropLast⟩

def FsPath.join (base q : FsPath) : FsPath :=
  if q.absolute then q else ⟨base.absolute, base.components ++ q.components⟩

/-- Modelled from the spec: a path reference is `Required(path)` or
`Optional(path)` (`PathNode` in `crate::project`, whose definition is not
part of the given sources; its `path()` accessor returns the inner path
either way, as used by `snapshot_project_node`). -/
inductive PathNode where
  | required (path : FsPath)
  | optional (path : FsPath)
deriving DecidableEq, Repr

def PathNode.path : PathNode → FsPath
  | .required p => p
  | .optional p => p

mutual
/-- Modelled from the spec: one authored project node (`ProjectNode` in
`crate::project`): optional explicit class name, optional path reference,
property-name-to-raw-value mapping, name-to-child mapping in declaration
order, optional explicit ignore-unknown-instances flag. -/
inductive ProjectNode : Type where
  | mk (className : Option String) (path : Option PathNode)
       (properties : List (String × String))
       (children : ProjectChildren)
       (ignoreUnknownInstances : Option Bool) : ProjectNode

/-- The ordered name-to-child mapping of a project node (declaration
order), unrolled so that the tree builder can recurse structurally. -/
inductive ProjectChildren : Type where
  | nil : ProjectChildren
  | cons (name : String) (node : ProjectNode) (rest : ProjectChildren) : ProjectChildren
end

def ProjectNode.className : ProjectNode → Option String
  | .mk c _ _ _ _ => c

def ProjectNode.path : ProjectNode → Option PathNode
  | .mk _ p _ _ _ => p

def ProjectNode.properties : ProjectNode → List (String × String)
  | .mk _ _ ps _ _ => ps

def ProjectNode.children : ProjectNode → ProjectChildren
  | .mk _ _ _ cs _ => cs

def ProjectNode.ignoreUnknownInstances : ProjectNode → Option Bool
  | .mk _ _ _ _ i => i

/-- Modelled from the spec: provenance record (`InstigatingSource`):
either a single file, or a project-file position with a deep copy of the
authored node and the parent class name. -/
inductive InstigatingSource where
  | filePath (path : FsPath)
  | projectNode (projectPath : FsPath) (instanceName : String)
      (node : ProjectNode) (parentClass : Option String)

/-- Modelled from the spec: per-snapshot metadata (`InstanceMetadata`):
ignore-unknown-instances flag (default `false`), instigating source,
ordered relevant-paths list. -/
structure InstanceMetadata where
  ignoreUnknownInstances : Bool := false
  instigatingSource : Option InstigatingSource := none
  relevantPaths : List FsPath := []

/-- Modelled from the spec: the resolved output node (`InstanceSnapshot`):
snapshot id, name, class name, property map, ordered children, metadata. -/
inductive InstanceSnapshot where
  | mk (snapshotId : Option Nat) (name : String) (className : String)
       (properties : List (String × String))
       (children : List InstanceSnapshot)
       (metadata : InstanceMetadata) : InstanceSnapshot

def InstanceSnapshot.name : InstanceSnapshot → String
  | .mk _ n _ _ _ _ => n

def InstanceSnapshot.className : InstanceSnapshot → String
  | .mk _ _ c _ _ _ => c

def InstanceSnapshot.properties : InstanceSnapshot → List (String × String)
  | .mk _ _ _ ps _ _ => ps

def InstanceSnapshot.children : InstanceSnapshot → List InstanceSnapshot
  | .mk _ _ _ _ cs _ => cs

def InstanceSnapshot.metadata : InstanceSnapshot → InstanceMetadata
  | .mk _ _ _ _ _ m => m

def InstanceSnapshot.withMetadata : InstanceSnapshot → InstanceMetadata → InstanceSnapshot
  | .mk i n c ps cs _, m => .mk i n c ps cs m

/-- Modelled from the spec: one glob-based ignore rule scoped to a base
directory (`PathIgnoreRule`). -/
structure PathIgnoreRule where
  glob : String
  basePath : FsPath

/-- Modelled from the spec: the per-scan context (`InstanceContext`),
carrying the ordered ignore rules; extended copy-on-write per scan. -/
structure InstanceContext where
  pathIgnoreRules : List PathIgnoreRule := []

/-- Modelled from the spec: the loader output (`Project`): instance tree,
root name, glob-ignore list and containing folder. -/
structure Project where
  name : String
  tree : ProjectNode
  globIgnorePaths : List String
  folderLocation : FsPath

/-- The structured errors `snapshot_project_node` / `snapshot_project` can
produce, carrying exactly the data interpolated into the corresponding
`bail!` / `with_context` messages. -/
inductive ResolveError where
  /-- An error propagated from `snapshot_from_vfs(...)?`. -/
  | vfs (message : String)
  /-- `Project::load_from_slice` failed ("File was not a valid Rojo project"). -/
  | load (path : FsPath) (message : String)
  /-- ClassName specified both in the project file and from the filesystem. -/
  | conflict (instanceName projectClass pathClass : String)
      (projectPath filePath : FsPath)
  /-- A `$path` could not be turned into an instance. -/
  | unresolvedPath (projectPath filePath : FsPath)
  /-- Instance is missing required information. -/
  | missingInformation (instanceName : String) (projectPath : FsPath)
  /-- "Unresolvable property in project at path ...", wrapping the
  property resolver's own error. -/
  | propertyResolution (projectPath : FsPath) (message : String)
deriving DecidableEq, Repr

/-- Outcome of the class-name decision `match` in `snapshot_project_node`
(lines 115-189): a class name, the `return Ok(None)` signal, an error, or
a panic (the `node.path.as_ref().unwrap()` in the conflict arm). -/
inductive ClassNameResolution where
  | resolved (className : String)
  | noInstance
  | err (e : ResolveError)
  | panicked
deriving DecidableEq, Repr

/-- Result of running a fragment of the Rust code: a panic (from an
`unwrap` on `None`), an `Err`, or an `Ok` value. -/
inductive RustResult (α : Type) where
  | panicked : RustResult α
  | error (e : ResolveError) : RustResult α
  | ok (value : α) : RustResult α

def RustResult.isError {α : Type} : RustResult α → Bool
  | .error _ => true
  | _ => false

/-- The external collaborators, as abstract functions:
`snapshotFromVfs` models `snapshot_from_vfs(context, vfs, path)` (the
`vfs` handle is folded into the function); `isService name` models
`rbx_reflection_database::get().classes.get(name)` succeeding with a
descriptor whose tags contain `ClassTag::Service`; `resolveValue
unresolved className key` models `unresolved.resolve(&class_name, key)`. -/
structure Externals where
  snapshotFromVfs : InstanceContext → FsPath → Except String (Option InstanceSnapshot)
  isService : String → Bool
  resolveValue : String → String → String → Except String String

/-- Embedding of `infer_class_name` (lines 263-287). -/
def infer_class_name (isService : String → Bool) (name : String)
    (parentClass : Option String) : Option String :=
  match parentClass with
  | none => none
  | some parentClass =>
    if parentClass = "DataModel" then
      if isService name then some name else none
    else if parentClass = "StarterPlayer" then
      if name = "StarterPlayerScripts" || name = "StarterCharacterScripts" then
        some name
      else none
    else none

/-- Embedding of the class-name decision `match` of `snapshot_project_node`
(lines 115-189), as a pure function of the four discriminants.  Arms are in
source order; the first matching arm wins, exactly as in Rust.  In the
conflict arm the source displays `node.path.as_ref().unwrap().path()`,
hence the `panicked` case when `nodePath` is `none` there. -/
def resolve_class_name (instanceName : String) (projectPath : FsPath)
    (fromProject fromPath fromInference : Option String)
    (nodePath : Option PathNode) : ClassNameResolution :=
  match fromProject, fromPath, fromInference, nodePath with
  | some project, none, none, _ => .resolved project
  | none, some path, none, _ => .resolved path
  | none, none, some inference, _ => .resolved inference
  | some project, none, some _, _ => .resolved project
  | none, some path, some inference, _ =>
    if path = "Folder" then .resolved inference else .resolved path
  | some project, some path, _, _ =>
    if path = "Folder" then .resolved project
    else
      match nodePath with
      | some pathNode =>
        .err (.conflict instanceName project path projectPath pathNode.path)
      | none => .panicked
  | none, none, none, some (.optional _) => .noInstance
  | _, none, _, some (.required path) => .err (.unresolvedPath projectPath path)
  | none, none, none, none => .err (.missingInformation instanceName projectPath)

/-- `HashMap::insert`: replace the value at an existing key, or add the
binding. -/
def insertProp : List (String × String) → String → String → List (String × String)
  | [], k, v => [(k, v)]
  | (k', v') :: rest, k, v =>
    if k' = k then (k, v) :: rest else (k', v') :: insertProp rest k v

/-- `HashMap::get`. -/
def lookupProp : List (String × String) → String → Option String
  | [], _ => none
  | (k', v') :: rest, k => if k' = k then some v' else lookupProp rest k

/-- Embedding of lines 79-111 of `snapshot_project_node`: resolve the
node's path reference (joined against the project folder when relative)
through the filesystem snapshotter, and seed
`(class_name_from_path, properties, children, metadata)` — empty/default
when there is no path or the snapshotter yields nothing. -/
def path_seed (ext : Externals) (context : InstanceContext) (projectFolder : FsPath) :
    Option PathNode →
    Except String (Option String × List (String × String) × List InstanceSnapshot × InstanceMetadata)
  | none => .ok (none, [], [], {})
  | some pathNode =>
    let path := pathNode.path
    let fullPath := if path.isRelative then projectFolder.join path else path
    match ext.snapshotFromVfs context fullPath with
    | .error e => .error e
    | .ok none => .ok (none, [], [], {})
    | .ok (some snapshot) =>
      .ok (some snapshot.className,
           snapshot.properties.foldl (fun m kv => insertProp m kv.1 kv.2) [],
           snapshot.children,
           snapshot.metadata)

/-- Embedding of the property loop of `snapshot_project_node` (lines
204-230): for each declared property in order, first resolve the raw value
(a failure aborts with a `propertyResolution` error), then drop the entry
with only a log warning when the key is `"Name"` or `"Parent"`, otherwise
insert it, overwriting any seeded value. -/
def apply_properties (ext : Externals) (projectPath : FsPath) (className : String) :
    List (String × String) → List (String × String) →
    Except ResolveError (List (String × String))
  | props, [] => .ok props
  | props, (key, unresolved) :: rest =>
    match ext.resolveValue unresolved className key with
    | .error e => .error (.propertyResolution projectPath e)
    | .ok value =>
      if key = "Name" || key = "Parent" then
        apply_properties ext projectPath className props rest
      else
        apply_properties ext projectPath className (insertProp props key value) rest

mutual
/-- Embedding of `snapshot_project_node` (lines 61-261).  The children
loop (lines 191-202) is `snapshot_children`. -/
def snapshot_project_node (ext : Externals) (context : InstanceContext)
    (projectPath : FsPath) (instanceName : String) (node : ProjectNode)
    (parentClass : Option String) : RustResult (Option InstanceSnapshot) :=
  match projectPath.parent with
  | none => .panicked
  | some projectFolder =>
    match node with
    | .mk classNameFromProject npath nprops nchildren nignore =>
      match path_seed ext context projectFolder npath with
      | .error e => .error (.vfs e)
      | .ok (classNameFromPath, properties0, children0, metadata0) =>
        let classNameFromInference := infer_class_name ext.isService instanceName parentClass
        match resolve_class_name instanceName projectPath classNameFromProject
            classNameFromPath classNameFromInference npath with
        | .panicked => .panicked
        | .noInstance => .ok none
        | .err e => .error e
        | .resolved className =>
          match snapshot_children ext context projectPath className nchildren with
          | .panicked => .panicked
          | .error e => .error e
          | .ok declaredChildren =>
            match apply_properties ext projectPath className properties0 nprops with
            | .error e => .error e
            | .ok properties =>
              let metadata1 :=
                match nignore with
                | some ignore => { metadata0 with ignoreUnknownInstances := ignore }
                | none =>
                  if npath.isNone then
                    { metadata0 with ignoreUnknownInstances := true }
                  else metadata0
              let metadata2 :=
                { metadata1 with
                    instigatingSource := some (.projectNode projectPath instanceName
                      (.mk classNameFromProject npath nprops nchildren nignore) parentClass) }
              .ok (some (.mk none instanceName className properties
                    (children0 ++ declaredChildren) metadata2))

/-- The children loop of `snapshot_project_node` (lines 191-202): recurse
into each declared child in declaration order with this node's resolved
class as the parent class; append each yielded snapshot, skip absences,
propagate panics and errors. -/
def snapshot_children (ext : Externals) (context : InstanceContext)
    (projectPath : FsPath) (className : String) :
    ProjectChildren → RustResult (List InstanceSnapshot)
  | .nil => .ok []
  | .cons childName childNode rest =>
    match snapshot_project_node ext context projectPath childName childNode
        (some className) with
    | .panicked => .panicked
    | .error e => .error e
    | .ok childOpt =>
      match snapshot_children ext context projectPath className rest with
      | .panicked => .panicked
      | .error e => .error e
      | .ok restChildren =>
        match childOpt with
        | some child => .ok (child :: restChildren)
        | none => .ok restChildren
end

/-- Embedding of `snapshot_project` (lines 17-59): load the project
(`loadProject` models `vfs.read` + `Project::load_from_slice`), extend a
clone of the context with the project's glob-ignore rules based at its
folder location, resolve the root node, then override the root snapshot's
instigating source with the project file path and append that path to its
relevant paths. -/
def snapshot_project (ext : Externals) (loadProject : FsPath → Except String Project)
    (context : InstanceContext) (path : FsPath) : RustResult (Option InstanceSnapshot) :=
  match loadProject path with
  | .error e => .error (.load path e)
  | .ok project =>
    let rules := project.globIgnorePaths.map
      (fun glob => PathIgnoreRule.mk glob project.folderLocation)
    let context1 : InstanceContext := ⟨context.pathIgnoreRules ++ rules⟩
    match snapshot_project_node ext context1 path project.name project.tree none with
    | .panicked => .panicked
    | .error e => .error e
    | .ok none => .ok none
    | .ok (some foundSnapshot) =>
      .ok (some (foundSnapshot.withMetadata
        { foundSnapshot.metadata with
            instigatingSource := some (.filePath path)
            relevantPaths := foundSnapshot.metadata.relevantPaths ++ [path] }))

/-!
Concrete fixtures used by witnesses and counterexamples.
-/

/-- A project file path with a parent directory. -/
def ppProj : FsPath := ⟨true, ["proj", "default.project.json"]⟩

/-- The directory containing `ppProj`. -/
def folderProj : FsPath := ⟨true, ["proj"]⟩

/-- A relative path used as a `$path` value. -/
def pRel : FsPath := ⟨false, ["src"]⟩

/-- A child carried by the fixture filesystem snapshot. -/
def fsChildA : InstanceSnapshot := .mk none "FsChild" "Folder" [] [] {}

/-- Metadata of the fixture filesystem snapshot (ignore flag set). -/
def fsMetaA : InstanceMetadata := { ignoreUnknownInstances := true }

/-- A filesystem snapshot with properties, a child and metadata. -/
def fsSnapA : InstanceSnapshot :=
  .mk none "fs" "StringValue" [("Value", "Original"), ("Keep", "KeepV")] [fsChildA] fsMetaA

/-- Externals whose snapshotter always yields `fsSnapA` and whose property
resolver succeeds with the raw value. -/
def extA : Externals :=
  ⟨fun _ _ => .ok (some fsSnapA), fun _ => false, fun v _ _ => .ok v⟩

/-- A declared child node with an explicit class. -/
def kidNode : ProjectNode := .mk (some "Model") none [] .nil none

/-- A node with a Required path, a property overriding the snapshot's
`Value`, a dropped `Name` property, and one declared child. -/
def nodeA : ProjectNode :=
  .mk none (some (.required pRel)) [("Value", "Changed"), ("Name", "X")]
    (.cons "Kid" kidNode .nil) none

/-- The resolved snapshot of `kidNode` under parent class `StringValue`. -/
def kidSnapA : InstanceSnapshot :=
  .mk none "Kid" "Model" [] []
    { ignoreUnknownInstances := true
      instigatingSource := some (.projectNode ppProj "Kid" kidNode (some "StringValue")) }

/-- The resolved snapshot of `nodeA`. -/
def snapA : InstanceSnapshot :=
  .mk none "A" "StringValue" [("Value", "Changed"), ("Keep", "KeepV")]
    [fsChildA, kidSnapA]
    { ignoreUnknownInstances := true
      instigatingSource := some (.projectNode ppProj "A" nodeA none) }

/-- Externals whose snapshotter yields nothing for every path. -/
def extNone : Externals := ⟨fun _ _ => .ok none, fun _ => false, fun v _ _ => .ok v⟩

/-- A node with an explicit class AND a Required path that the snapshotter
cannot resolve. -/
def nodeC3 : ProjectNode :=
  .mk (some "Model") (some (.required ⟨false, ["missing.lua"]⟩)) [] .nil none

/-- The snapshot `nodeC3` resolves to (class from the explicit name). -/
def snapC3 : InstanceSnapshot :=
  .mk none "X" "Model" [] [] { instigatingSource := some (.projectNode ppProj "X" nodeC3 none) }

/-- A node with no Required path and no explicit class name under it. -/
def nodeC3w : ProjectNode := .mk none (some (.required pRel)) [] .nil none

/-- A plain explicit-class node without a path reference. -/
def nodeB : ProjectNode := .mk (some "Folder") none [] .nil none

/-- The resolved snapshot of `nodeB` (ignore flag defaults to true). -/
def snapB : InstanceSnapshot :=
  .mk none "root" "Folder" [] []
    { ignoreUnknownInstances := true
      instigatingSource := some (.projectNode ppProj "root" nodeB none) }

/-- Externals whose property resolver always fails. -/
def extBad : Externals := ⟨fun _ _ => .ok none, fun _ => false, fun _ _ _ => .error "boom"⟩

/-- A node declaring a `Name` property whose raw value will not resolve. -/
def nodeC4 : ProjectNode := .mk (some "Folder") none [("Name", "bad")] .nil none

/-- A node that sets the ignore-unknown-instances flag explicitly. -/
def nodeC8 : ProjectNode := .mk (some "Folder") none [] .nil (some false)

/-- The resolved snapshot of `nodeC8` (explicit flag wins). -/
def snapC8 : InstanceSnapshot :=
  .mk none "F" "Folder" [] []
    { instigatingSource := some (.projectNode ppProj "F" nodeC8 none) }

/-- A loaded project whose tree is `nodeB`. -/
def projW : Project := ⟨"root", nodeB, [], folderProj⟩

/-- A loader that always yields `projW`. -/
def loaderW : FsPath → Except String Project := fun _ => .ok projW

/-- A node with an Optional path that the snapshotter cannot resolve and
no other class-name candidate. -/
def nodeC6 : ProjectNode := .mk none (some (.optional pRel)) [] .nil none

/-!
Helper lemmas shared by the claim theorems.
-/

theorem not_mem_keys (l : List (String × String)) (k : String)
    (h : k ∉ l.map Prod.fst) : ∀ v, (k, v) ∉ l :=
  fun _ hv => h (List.mem_map_of_mem Prod.fst hv)

theorem not_mem_keys_of_forall (l : List (String × String)) (k : String)
    (h : ∀ v, (k, v) ∉ l) : k ∉ l.map Prod.fst := by
  intro hm
  rcases List.mem_map.mp hm with ⟨⟨a, b⟩, hab, hfst⟩
  cases hfst
  exact h b hab

theorem lookupProp_insertProp_self (props : List (String × String)) (k v : String) :
    lookupProp (insertProp props k v) k = some v := by
  induction props with
  | nil => simp [insertProp, lookupProp]
  | cons hd tl ih =>
    obtain ⟨k', v'⟩ := hd
    by_cases h : k' = k <;> simp [insertProp, lookupProp, h, ih]

theorem lookupProp_insertProp_ne (props : List (String × String)) (k v k' : String)
    (h : k' ≠ k) : lookupProp (insertProp props k v) k' = lookupProp props k' := by
  induction props with
  | nil => simp [insertProp, lookupProp, Ne.symm h]
  | cons hd tl ih =>
    obtain ⟨k0, v0⟩ := hd
    by_cases h0 : k0 = k
    · subst h0
      simp [insertProp, lookupProp, Ne.symm h]
    · simp only [insertProp, if_neg h0, lookupProp]
      by_cases h1 : k0 = k' <;> simp [h1, ih]

theorem lookupProp_eq_none (props : List (String × String)) (k : String)
    (h : ∀ v, (k, v) ∉ props) : lookupProp props k = none := by
  induction props with
  | nil => rfl
  | cons hd tl ih =>
    obtain ⟨k0, v0⟩ := hd
    have hk0 : ¬k0 = k := by
      intro he; subst he; exact h v0 (List.mem_cons_self _ _)
    simp only [lookupProp, if_neg hk0]
    exact ih (fun v hv => h v (List.mem_cons_of_mem _ hv))

theorem lookupProp_foldl_insert (l : List (String × String)) (m : List (String × String))
    (k : String) (hnd : (l.map Prod.fst).Nodup) :
    lookupProp (l.foldl (fun acc kv => insertProp acc kv.1 kv.2) m) k
      = match lookupProp l k with
        | some v => some v
        | none => lookupProp m k := by
  induction l generalizing m with
  | nil => simp [lookupProp]
  | cons hd tl ih =>
    obtain ⟨k0, v0⟩ := hd
    simp at hnd
    rw [List.foldl_cons, ih _ hnd.2]
    by_cases h : k0 = k
    · subst h
      rw [lookupProp_eq_none tl k0 hnd.1]
      simp [lookupProp, lookupProp_insertProp_self]
    · simp [lookupProp, h, lookupProp_insertProp_ne _ _ _ _ (Ne.symm h)]

theorem apply_properties_not_declared (ext : Externals) (pp : FsPath) (cls : String)
    (declared : List (String × String)) (seed out : List (String × String)) (k : String)
    (hk : k ∉ declared.map Prod.fst)
    (h : apply_properties ext pp cls seed declared = .ok out) :
    lookupProp out k = lookupProp seed k := by
  induction declared generalizing seed with
  | nil =>
    simp [apply_properties] at h
    subst h; rfl
  | cons hd tl ih =>
    obtain ⟨k0, v0⟩ := hd
    simp at hk
    unfold apply_properties at h
    split at h
    · exact Except.noConfusion h
    next w hw =>
      split at h
      · exact ih _ (not_mem_keys_of_forall _ _ hk.2) h
      · rw [ih _ (not_mem_keys_of_forall _ _ hk.2) h,
          lookupProp_insertProp_ne _ _ _ _ hk.1]

theorem apply_properties_declared (ext : Externals) (pp : FsPath) (cls : String)
    (declared : List (String × String)) (seed out : List (String × String)) (k v : String)
    (hnd : (declared.map Prod.fst).Nodup)
    (hmem : (k, v) ∈ declared)
    (hname : k ≠ "Name") (hparent : k ≠ "Parent")
    (h : apply_properties ext pp cls seed declared = .ok out) :
    ∃ w, ext.resolveValue v cls k = .ok w ∧ lookupProp out k = some w := by
  induction declared generalizing seed with
  | nil => simp at hmem
  | cons hd tl ih =>
    obtain ⟨k0, v0⟩ := hd
    simp at hnd
    unfold apply_properties at h
    split at h
    · exact Except.noConfusion h
    next w hw =>
      rcases List.mem_cons.mp hmem with heq | hmem'
      · injection heq with hk hv
        subst hk; subst hv
        split at h
        next hkey => simp [hname, hparent] at hkey
        next hkey =>
          refine ⟨w, hw, ?_⟩
          rw [apply_properties_not_declared ext pp cls tl _ out k
            (not_mem_keys_of_forall _ _ hnd.1) h]
          exact lookupProp_insertProp_self _ _ _
      · split at h
        · exact ih _ hnd.2 hmem' h
        · exact ih _ hnd.2 hmem' h

theorem snapshot_children_cons (ext : Externals) (ctx : InstanceContext) (pp : FsPath)
    (cls n : String) (childNode : ProjectNode) (rest : ProjectChildren) :
    snapshot_children ext ctx pp cls (.cons n childNode rest)
      = match snapshot_project_node ext ctx pp n childNode (some cls) with
        | .panicked => .panicked
        | .error e => .error e
        | .ok childOpt =>
          match snapshot_children ext ctx pp cls rest with
          | .panicked => .panicked
          | .error e => .error e
          | .ok restChildren =>
            match childOpt with
            | some child => .ok (child :: restChildren)
            | none => .ok restChildren := rfl

theorem path_seed_inv_some (ext : Externals) (ctx : InstanceContext) (folder : FsPath)
    (pn : PathNode) (fsSnap : InstanceSnapshot) (seedCN : Option String)
    (seedProps : List (String × String)) (seedChildren : List InstanceSnapshot)
    (seedMeta : InstanceMetadata)
    (hfs : ext.snapshotFromVfs ctx
      (if pn.path.isRelative then folder.join pn.path else pn.path) = .ok (some fsSnap))
    (hps : path_seed ext ctx folder (some pn) = .ok (seedCN, seedProps, seedChildren, seedMeta)) :
    seedCN = some fsSnap.className
    ∧ seedProps = fsSnap.properties.foldl (fun acc kv => insertProp acc kv.1 kv.2) []
    ∧ seedChildren = fsSnap.children ∧ seedMeta = fsSnap.metadata := by
  unfold path_seed at hps
  dsimp only at hps
  rw [hfs] at hps
  injection hps with hps
  injection hps with h1 hps
  injection hps with h2 hps
  injection hps with h3 h4
  exact ⟨h1.symm, h2.symm, h3.symm, h4.symm⟩

theorem path_seed_inv_none (ext : Externals) (ctx : InstanceContext) (folder : FsPath)
    (pn : PathNode) (seedCN : Option String)
    (seedProps : List (String × String)) (seedChildren : List InstanceSnapshot)
    (seedMeta : InstanceMetadata)
    (hfs : ext.snapshotFromVfs ctx
      (if pn.path.isRelative then folder.join pn.path else pn.path) = .ok none)
    (hps : path_seed ext ctx folder (some pn) = .ok (seedCN, seedProps, seedChildren, seedMeta)) :
    seedCN = none ∧ seedProps = [] ∧ seedChildren = [] ∧ seedMeta = {} := by
  unfold path_seed at hps
  dsimp only at hps
  rw [hfs] at hps
  injection hps with hps
  injection hps with h1 hps
  injection hps with h2 hps
  injection hps with h3 h4
  exact ⟨h1.symm, h2.symm, h3.symm, h4.symm⟩

theorem path_seed_fromPath_some (ext : Externals) (ctx : InstanceContext) (f : FsPath)
    (np : Option PathNode) (c : String) (a : List (String × String))
    (b : List InstanceSnapshot) (m : InstanceMetadata)
    (h : path_seed ext ctx f np = .ok (some c, a, b, m)) : np ≠ none := by
  cases np
  · simp [path_seed] at h
  · simp

theorem resolve_class_name_panicked_elim (i : String) (pp : FsPath)
    (fp fps inf : Option String) (np : Option PathNode)
    (h : resolve_class_name i pp fp fps inf np = .panicked) :
    fps ≠ none ∧ np = none := by
  cases fp <;> cases fps <;> cases inf <;> cases np <;>
    simp_all [resolve_class_name] <;>
    (split at h <;> simp_all)

theorem snapshot_node_ok_elim (ext : Externals) (ctx : InstanceContext) (pp : FsPath)
    (inst : String) (node : ProjectNode) (pc : Option String) (snap : InstanceSnapshot)
    (h : snapshot_project_node ext ctx pp inst node pc = .ok (some snap)) :
    ∃ folder seedCN seedProps seedChildren seedMeta cls dcs finalProps,
      pp.parent = some folder
      ∧ path_seed ext ctx folder node.path = .ok (seedCN, seedProps, seedChildren, seedMeta)
      ∧ resolve_class_name inst pp node.className seedCN
          (infer_class_name ext.isService inst pc) node.path = .resolved cls
      ∧ snapshot_children ext ctx pp cls node.children = .ok dcs
      ∧ apply_properties ext pp cls seedProps node.properties = .ok finalProps
      ∧ snap.name = inst ∧ snap.className = cls
      ∧ snap.properties = finalProps
      ∧ snap.children = seedChildren ++ dcs
      ∧ snap.metadata.ignoreUnknownInstances =
          (match node.ignoreUnknownInstances with
           | some b => b
           | none => if node.path.isNone then true else seedMeta.ignoreUnknownInstances)
      ∧ snap.metadata.instigatingSource = some (.projectNode pp inst node pc)
      ∧ snap.metadata.relevantPaths = seedMeta.relevantPaths := by
  obtain ⟨cn, npath, nprops, nchilds, nign⟩ := node
  unfold snapshot_project_node at h
  split at h
  · exact RustResult.noConfusion h
  next folder hpar =>
    dsimp only at h
    split at h
    · exact RustResult.noConfusion h
    next seedCN seedProps seedChildren seedMeta hps =>
      split at h
      · exact RustResult.noConfusion h
      · simp at h
      · exact RustResult.noConfusion h
      next cls hcls =>
        split at h
        · exact RustResult.noConfusion h
        · exact RustResult.noConfusion h
        next dcs hch =>
          split at h
          · exact RustResult.noConfusion h
          next finalProps hprops =>
            injection h with h
            injection h with h
            refine ⟨folder, seedCN, seedProps, seedChildren, seedMeta, cls, dcs, finalProps,
              hpar, hps, hcls, hch, hprops, ?_⟩
            subst h
            cases nign <;> cases npath <;>
              simp [InstanceSnapshot.name, InstanceSnapshot.className,
                InstanceSnapshot.properties, InstanceSnapshot.children,
                InstanceSnapshot.metadata, ProjectNode.ignoreUnknownInstances,
                ProjectNode.path]

mutual
theorem snapshot_node_no_panic (ext : Externals) (ctx : InstanceContext) (pp : FsPath)
    (inst : String) (node : ProjectNode) (pc : Option String) (folder : FsPath)
    (hpar : pp.parent = some folder) :
    snapshot_project_node ext ctx pp inst node pc ≠ .panicked := by
  obtain ⟨cn, npath, nprops, nchilds, nign⟩ := node
  unfold snapshot_project_node
  rw [hpar]
  dsimp only
  split
  · intro h; exact RustResult.noConfusion h
  next seedCN seedProps seedChildren seedMeta hps =>
    split
    next hres =>
      obtain ⟨hfps, hnp⟩ := resolve_class_name_panicked_elim _ _ _ _ _ _ hres
      subst hnp
      cases seedCN
      · exact absurd rfl hfps
      · exact absurd rfl (path_seed_fromPath_some _ _ _ _ _ _ _ _ hps)
    · intro h; exact RustResult.noConfusion h
    · intro h; exact RustResult.noConfusion h
    next cls hcls =>
      split
      next hch =>
        exact absurd hch (snapshot_children_no_panic ext ctx pp cls nchilds folder hpar)
      · intro h; exact RustResult.noConfusion h
      next dcs hch =>
        split
        · intro h; exact RustResult.noConfusion h
        · intro h; exact RustResult.noConfusion h

theorem snapshot_children_no_panic (ext : Externals) (ctx : InstanceContext) (pp : FsPath)
    (className : String) (childs : ProjectChildren) (folder : FsPath)
    (hpar : pp.parent = some folder) :
    snapshot_children ext ctx pp className childs ≠ .panicked := by
  cases childs with
  | nil => intro h; exact RustResult.noConfusion h
  | cons childName childNode rest =>
    unfold snapshot_children
    split
    next hc =>
      exact absurd hc
        (snapshot_node_no_panic ext ctx pp childName childNode (some className) folder hpar)
    · intro h; exact RustResult.noConfusion h
    next childOpt hc =>
      split
      next hr =>
        exact absurd hr (snapshot_children_no_panic ext ctx pp className rest folder hpar)
      · intro h; exact RustResult.noConfusion h
      next rs hr =>
        cases childOpt <;> (intro h; exact RustResult.noConfusion h)
end

/-!
Claim theorems.
-/

/-- C1: for a node with both an explicit class name and a path-derived
class name, the class-name decision yields the explicit name when the
path-derived name is exactly `"Folder"` (regardless of any inferred
class), and otherwise a Conflict error naming both class-name values, the
project file path and the filesystem path. -/
theorem C1_explicit_and_path_derived_class (instanceName : String) (projectPath : FsPath)
    (e p : String) (inf : Option String) (pn : PathNode) :
    (p = "Folder" →
      resolve_class_name instanceName projectPath (some e) (some p) inf (some pn)
        = .resolved e)
    ∧ (p ≠ "Folder" →
      resolve_class_name instanceName projectPath (some e) (some p) inf (some pn)
        = .err (.conflict instanceName e p projectPath pn.path)) := by
  constructor <;> intro h <;> simp [resolve_class_name, h]

/-- Witness for C1 at concrete inputs: explicit `"Model"` with path-derived
`"Folder"` resolves to `"Model"`; with path-derived `"Part"` it is a
Conflict error carrying both names and both paths. -/
theorem C1_explicit_and_path_derived_class_witness :
    (resolve_class_name "X" ppProj (some "Model") (some "Folder") (some "Inferred")
       (some (.required pRel)) = .resolved "Model")
    ∧ (resolve_class_name "X" ppProj (some "Model") (some "Part") none
       (some (.required pRel))
       = .err (.conflict "X" "Model" "Part" ppProj pRel)) :=
  ⟨(C1_explicit_and_path_derived_class "X" ppProj "Model" "Folder" (some "Inferred")
      (.required pRel)).1 rfl,
   (C1_explicit_and_path_derived_class "X" ppProj "Model" "Part" none
      (.required pRel)).2 (by decide)⟩

/-- C2: for a node with no explicit class but both a path-derived and an
inferred class name, the decision yields the inferred name when the
path-derived name is exactly `"Folder"` and the path-derived name
otherwise. -/
theorem C2_folder_path_yields_inferred (instanceName : String) (projectPath : FsPath)
    (p i : String) (np : Option PathNode) :
    resolve_class_name instanceName projectPath none (some p) (some i) np
      = .resolved (if p = "Folder" then i else p) := by
  by_cases h : p = "Folder" <;> simp [resolve_class_name, h]

/-- C3 counterexample: a node with a `Required` path that the snapshotter
cannot resolve but with an explicit class name resolves successfully (to
the explicit class) instead of failing with a hard error — the explicit
match arm fires before the `Required` bail arm. -/
theorem C3_explicit_beats_failed_required_path :
    (extNone.snapshotFromVfs {}
        (if (FsPath.mk false ["missing.lua"]).isRelative
         then folderProj.join (FsPath.mk false ["missing.lua"])
         else FsPath.mk false ["missing.lua"]) = .ok none)
    ∧ snapshot_project_node extNone {} ppProj "X" nodeC3 none = .ok (some snapC3)
    ∧ (snapshot_project_node extNone {} ppProj "X" nodeC3 none).isError = false :=
  ⟨rfl, rfl, rfl⟩

/-- C3 (amended): for a node whose path reference is `Required`, whose
path yields no snapshot from the filesystem snapshotter, and that has no
explicit class name and no inferred class name, node resolution fails with
the UnresolvedPath error naming the project path and the `$path` value. -/
theorem C3_required_path_unresolved_error (ext : Externals) (ctx : InstanceContext)
    (pp folder : FsPath) (inst : String) (pc : Option String) (p : FsPath)
    (node : ProjectNode)
    (hpar : pp.parent = some folder)
    (hcn : node.className = none)
    (hpath : node.path = some (.required p))
    (hfs : ext.snapshotFromVfs ctx (if p.isRelative then folder.join p else p) = .ok none)
    (hinf : infer_class_name ext.isService inst pc = none) :
    snapshot_project_node ext ctx pp inst node pc = .error (.unresolvedPath pp p) := by
  obtain ⟨cn, npath, nprops, nchilds, nign⟩ := node
  simp only [ProjectNode.className] at hcn
  simp only [ProjectNode.path] at hpath
  subst hcn; subst hpath
  unfold snapshot_project_node
  rw [hpar]
  dsimp only
  simp only [path_seed, PathNode.path, hfs, hinf, resolve_class_name]

/-- Witness for C3 (amended): a concrete node with only a failing
`Required` path produces exactly the UnresolvedPath error. -/
theorem C3_required_path_unresolved_error_witness :
    (extNone.snapshotFromVfs {}
        (if pRel.isRelative then folderProj.join pRel else pRel) = .ok none)
    ∧ snapshot_project_node extNone {} ppProj "Y" nodeC3w none
        = .error (.unresolvedPath ppProj pRel) :=
  ⟨rfl, C3_required_path_unresolved_error extNone {} ppProj folderProj "Y" none pRel
     nodeC3w rfl rfl rfl rfl rfl⟩

/-- C4 counterexample: a node declaring a `Name` property whose raw value
fails to resolve makes node resolution fail with a PropertyResolution
error — the code resolves the value before discarding the key, so the
declaration is not always dropped with only a warning. -/
theorem C4_unresolvable_name_property_errors :
    snapshot_project_node extBad {} ppProj "X" nodeC4 none
      = .error (.propertyResolution ppProj "boom") := rfl

/-- C4 (amended): a declared `"Name"` or `"Parent"` property whose raw
value resolves successfully is dropped from the property loop — the loop
continues exactly as if the entry were not declared, so the property never
appears in the resolved property map; and the output name of every
successfully resolved node is the instance name from the tree structure,
never property data. -/
theorem C4_name_parent_properties_dropped :
    (∀ (ext : Externals) (pp : FsPath) (cls : String)
        (props rest : List (String × String)) (key v w : String),
        key = "Name" ∨ key = "Parent" →
        ext.resolveValue v cls key = .ok w →
        apply_properties ext pp cls props ((key, v) :: rest)
          = apply_properties ext pp cls props rest)
    ∧ (∀ (ext : Externals) (ctx : InstanceContext) (pp : FsPath) (inst : String)
        (node : ProjectNode) (pc : Option String) (snap : InstanceSnapshot),
        snapshot_project_node ext ctx pp inst node pc = .ok (some snap) →
        snap.name = inst) := by
  constructor
  · intro ext pp cls props rest key v w hkey hres
    rcases hkey with h | h <;> subst h <;> simp [apply_properties, hres]
  · intro ext ctx pp inst node pc snap h
    obtain ⟨folder, seedCN, seedProps, seedChildren, seedMeta, cls, dcs, finalProps,
      hpar, hps, hcls, hch, hprops, hname, hrest⟩ :=
      snapshot_node_ok_elim ext ctx pp inst node pc snap h
    exact hname

/-- Witness for C4 (amended): a resolvable `Name` entry is dropped from a
concrete property loop, and a concrete resolved snapshot keeps its
structural name. -/
theorem C4_name_parent_properties_dropped_witness :
    (extA.resolveValue "N" "Folder" "Name" = .ok "N")
    ∧ apply_properties extA ppProj "Folder" [] [("Name", "N")]
        = apply_properties extA ppProj "Folder" [] []
    ∧ snapB.name = "root" :=
  ⟨rfl,
   C4_name_parent_properties_dropped.1 extA ppProj "Folder" [] [] "Name" "N" "N"
     (Or.inl rfl) rfl,
   C4_name_parent_properties_dropped.2 extA {} ppProj "root" nodeB none snapB rfl⟩

/-- C5: for a successfully resolved node whose path reference resolved to
a filesystem snapshot, every property key declared on the node (other than
the dropped `Name`/`Parent`) ends up in the final property map with the
node's declared resolved value, and keys the node does not declare keep
the snapshot's value unchanged. -/
theorem C5_declared_properties_override (ext : Externals) (ctx : InstanceContext)
    (pp folder : FsPath) (inst : String) (node : ProjectNode) (pc : Option String)
    (snap : InstanceSnapshot) (pn : PathNode) (fsSnap : InstanceSnapshot)
    (hpar : pp.parent = some folder)
    (hpath : node.path = some pn)
    (hfs : ext.snapshotFromVfs ctx
      (if pn.path.isRelative then folder.join pn.path else pn.path) = .ok (some fsSnap))
    (h : snapshot_project_node ext ctx pp inst node pc = .ok (some snap))
    (hnd : (node.properties.map Prod.fst).Nodup) :
    (∀ key v, (key, v) ∈ node.properties → key ≠ "Name" → key ≠ "Parent" →
       ∃ w, ext.resolveValue v snap.className key = .ok w ∧
         lookupProp snap.properties key = some w)
    ∧ (∀ key, key ∉ node.properties.map Prod.fst →
       (fsSnap.properties.map Prod.fst).Nodup →
       lookupProp snap.properties key = lookupProp fsSnap.properties key) := by
  obtain ⟨folder', seedCN, seedProps, seedChildren, seedMeta, cls, dcs, finalProps,
    hpar', hps, hcls, hch, hprops, hname, hcn, hpropsEq, hchildEq, hig, his, hrp⟩ :=
    snapshot_node_ok_elim ext ctx pp inst node pc snap h
  rw [hpar] at hpar'
  injection hpar' with hpar'
  subst hpar'
  rw [hpath] at hps
  obtain ⟨hs1, hs2, hs3, hs4⟩ := path_seed_inv_some ext ctx folder pn fsSnap _ _ _ _ hfs hps
  subst hs2
  constructor
  · intro key v hmem hn hp
    rw [hcn, hpropsEq]
    exact apply_properties_declared ext pp cls node.properties _ finalProps key v
      hnd hmem hn hp hprops
  · intro key hk hndFs
    rw [hpropsEq,
      apply_properties_not_declared ext pp cls node.properties _ finalProps key hk hprops,
      lookupProp_foldl_insert _ _ _ hndFs]
    cases hl : lookupProp fsSnap.properties key <;> simp [lookupProp]

/-- Witness for C5: in the fixture, the declared `Value = "Changed"`
overrides the snapshot's `Value = "Original"` and the undeclared `Keep`
key keeps the snapshot's value. -/
theorem C5_declared_properties_override_witness :
    (snapshot_project_node extA {} ppProj "A" nodeA none = .ok (some snapA))
    ∧ (∃ w, extA.resolveValue "Changed" snapA.className "Value" = .ok w
        ∧ lookupProp snapA.properties "Value" = some w)
    ∧ lookupProp snapA.properties "Keep" = lookupProp fsSnapA.properties "Keep" :=
  ⟨rfl,
   (C5_declared_properties_override extA {} ppProj folderProj "A" nodeA none snapA
      (.required pRel) fsSnapA rfl rfl rfl rfl (by decide)).1 "Value" "Changed"
      (by decide) (by decide) (by decide),
   (C5_declared_properties_override extA {} ppProj folderProj "A" nodeA none snapA
      (.required pRel) fsSnapA rfl rfl rfl rfl (by decide)).2 "Keep"
      (by decide) (by decide)⟩

/-- C6: a node with an `Optional` path reference that fails to resolve and
no other class-name candidate yields absence (`Ok(None)`), not an error;
and a child that yields absence is simply omitted from its parent's child
list, leaving the sibling resolution unchanged. -/
theorem C6_optional_unresolved_absent :
    (∀ (ext : Externals) (ctx : InstanceContext) (pp folder : FsPath) (inst : String)
        (pc : Option String) (p : FsPath) (node : ProjectNode),
        pp.parent = some folder →
        node.className = none →
        node.path = some (.optional p) →
        ext.snapshotFromVfs ctx (if p.isRelative then folder.join p else p) = .ok none →
        infer_class_name ext.isService inst pc = none →
        snapshot_project_node ext ctx pp inst node pc = .ok none)
    ∧ (∀ (ext : Externals) (ctx : InstanceContext) (pp : FsPath) (cls n : String)
        (childNode : ProjectNode) (rest : ProjectChildren),
        snapshot_project_node ext ctx pp n childNode (some cls) = .ok none →
        snapshot_children ext ctx pp cls (.cons n childNode rest)
          = snapshot_children ext ctx pp cls rest) := by
  constructor
  · intro ext ctx pp folder inst pc p node hpar hcn hpath hfs hinf
    obtain ⟨cn, npath, nprops, nchilds, nign⟩ := node
    simp only [ProjectNode.className] at hcn
    simp only [ProjectNode.path] at hpath
    subst hcn; subst hpath
    unfold snapshot_project_node
    rw [hpar]
    dsimp only
    simp only [path_seed, PathNode.path, hfs, hinf, resolve_class_name]
  · intro ext ctx pp cls n childNode rest hc
    rw [snapshot_children_cons, hc]
    dsimp only
    cases hr : snapshot_children ext ctx pp cls rest <;> rfl

/-- Witness for C6: a concrete node with a failing `Optional` path yields
absence, and prepending it to a child list leaves the result unchanged. -/
theorem C6_optional_unresolved_absent_witness :
    (snapshot_project_node extNone {} ppProj "G" nodeC6 none = .ok none)
    ∧ snapshot_children extNone {} ppProj "Folder" (.cons "G" nodeC6 .nil)
        = snapshot_children extNone {} ppProj "Folder" .nil :=
  ⟨C6_optional_unresolved_absent.1 extNone {} ppProj folderProj "G" none pRel nodeC6
     rfl rfl rfl rfl rfl,
   C6_optional_unresolved_absent.2 extNone {} ppProj "Folder" "G" nodeC6 .nil
     (C6_optional_unresolved_absent.1 extNone {} ppProj folderProj "G" (some "Folder")
       pRel nodeC6 rfl rfl rfl rfl rfl)⟩

/-- C7: a successfully resolved node's child list is the path-resolved
snapshot's children (in the snapshot's order) followed by the successfully
resolved declared children; the children loop emits a resolved declared
child before the rest of the declarations and silently skips an absent
one, so declared children appear in declaration order. -/
theorem C7_children_ordering :
    (∀ (ext : Externals) (ctx : InstanceContext) (pp folder : FsPath) (inst : String)
        (node : ProjectNode) (pc : Option String) (snap : InstanceSnapshot)
        (pn : PathNode) (fsSnap : InstanceSnapshot),
        pp.parent = some folder →
        node.path = some pn →
        ext.snapshotFromVfs ctx
          (if pn.path.isRelative then folder.join pn.path else pn.path) = .ok (some fsSnap) →
        snapshot_project_node ext ctx pp inst node pc = .ok (some snap) →
        ∃ dcs, snapshot_children ext ctx pp snap.className node.children = .ok dcs
          ∧ snap.children = fsSnap.children ++ dcs)
    ∧ (∀ (ext : Externals) (ctx : InstanceContext) (pp : FsPath) (cls n : String)
        (childNode : ProjectNode) (rest : ProjectChildren)
        (c : InstanceSnapshot) (cs : List InstanceSnapshot),
        snapshot_project_node ext ctx pp n childNode (some cls) = .ok (some c) →
        snapshot_children ext ctx pp cls rest = .ok cs →
        snapshot_children ext ctx pp cls (.cons n childNode rest) = .ok (c :: cs))
    ∧ (∀ (ext : Externals) (ctx : InstanceContext) (pp : FsPath) (cls n : String)
        (childNode : ProjectNode) (rest : ProjectChildren),
        snapshot_project_node ext ctx pp n childNode (some cls) = .ok none →
        snapshot_children ext ctx pp cls (.cons n childNode rest)
          = snapshot_children ext ctx pp cls rest) := by
  refine ⟨?_, ?_, ?_⟩
  · intro ext ctx pp folder inst node pc snap pn fsSnap hpar hpath hfs h
    obtain ⟨folder', seedCN, seedProps, seedChildren, seedMeta, cls, dcs, finalProps,
      hpar', hps, hcls, hch, hprops, hname, hcn, hpropsEq, hchildEq, hig, his, hrp⟩ :=
      snapshot_node_ok_elim ext ctx pp inst node pc snap h
    rw [hpar] at hpar'
    injection hpar' with hpar'
    subst hpar'
    rw [hpath] at hps
    obtain ⟨hs1, hs2, hs3, hs4⟩ :=
      path_seed_inv_some ext ctx folder pn fsSnap _ _ _ _ hfs hps
    subst hs3
    exact ⟨dcs, by rw [hcn]; exact hch, by rw [hchildEq]⟩
  · intro ext ctx pp cls n childNode rest c cs hc hr
    rw [snapshot_children_cons, hc]
    dsimp only
    rw [hr]
  · intro ext ctx pp cls n childNode rest hc
    rw [snapshot_children_cons, hc]
    dsimp only
    cases hr : snapshot_children ext ctx pp cls rest <;> rfl

/-- Witness for C7: in the fixture, the resolved child list is the
snapshot's children followed by the declared children. -/
theorem C7_children_ordering_witness :
    ∃ dcs, snapshot_children extA {} ppProj snapA.className nodeA.children = .ok dcs
      ∧ snapA.children = fsSnapA.children ++ dcs :=
  C7_children_ordering.1 extA {} ppProj folderProj "A" nodeA none snapA
    (.required pRel) fsSnapA rfl rfl rfl rfl

/-- C8: the final ignore-unknown-instances flag of a successfully resolved
node is the node's explicit flag when set; otherwise `true` when the node
has no path reference; otherwise the flag inherited from the path-resolved
snapshot's metadata, or `false` when the path yielded no snapshot. -/
theorem C8_ignore_unknown_instances_flag (ext : Externals) (ctx : InstanceContext)
    (pp : FsPath) (inst : String) (node : ProjectNode) (pc : Option String)
    (snap : InstanceSnapshot)
    (h : snapshot_project_node ext ctx pp inst node pc = .ok (some snap)) :
    (∀ b, node.ignoreUnknownInstances = some b →
        snap.metadata.ignoreUnknownInstances = b)
    ∧ (node.ignoreUnknownInstances = none → node.path = none →
        snap.metadata.ignoreUnknownInstances = true)
    ∧ (∀ folder pn fsSnap, node.ignoreUnknownInstances = none → node.path = some pn →
        pp.parent = some folder →
        ext.snapshotFromVfs ctx
          (if pn.path.isRelative then folder.join pn.path else pn.path) = .ok (some fsSnap) →
        snap.metadata.ignoreUnknownInstances = fsSnap.metadata.ignoreUnknownInstances)
    ∧ (∀ folder pn, node.ignoreUnknownInstances = none → node.path = some pn →
        pp.parent = some folder →
        ext.snapshotFromVfs ctx
          (if pn.path.isRelative then folder.join pn.path else pn.path) = .ok none →
        snap.metadata.ignoreUnknownInstances = false) := by
  obtain ⟨folder', seedCN, seedProps, seedChildren, seedMeta, cls, dcs, finalProps,
    hpar', hps, hcls, hch, hprops, hname, hcn, hpropsEq, hchildEq, hig, his, hrp⟩ :=
    snapshot_node_ok_elim ext ctx pp inst node pc snap h
  refine ⟨?_, ?_, ?_, ?_⟩
  · intro b hb
    rw [hig, hb]
  · intro hb hp
    rw [hig, hb, hp]
    rfl
  · intro folder pn fsSnap hb hp hpar hfs
    rw [hpar] at hpar'
    injection hpar' with hpar'
    subst hpar'
    rw [hp] at hps
    obtain ⟨hs1, hs2, hs3, hs4⟩ :=
      path_seed_inv_some ext ctx folder pn fsSnap _ _ _ _ hfs hps
    rw [hig, hb, hp, hs4]
    rfl
  · intro folder pn hb hp hpar hfs
    rw [hpar] at hpar'
    injection hpar' with hpar'
    subst hpar'
    rw [hp] at hps
    obtain ⟨hs1, hs2, hs3, hs4⟩ :=
      path_seed_inv_none ext ctx folder pn _ _ _ _ hfs hps
    rw [hig, hb, hp, hs4]
    rfl

/-- Witness for C8: an explicit `false` flag wins; a node with no path
reference defaults to `true`; a node with a resolved path inherits the
snapshot's flag. -/
theorem C8_ignore_unknown_instances_flag_witness :
    (snapC8.metadata.ignoreUnknownInstances = false)
    ∧ (snapB.metadata.ignoreUnknownInstances = true)
    ∧ (snapA.metadata.ignoreUnknownInstances = fsMetaA.ignoreUnknownInstances) :=
  ⟨(C8_ignore_unknown_instances_flag extA {} ppProj "F" nodeC8 none snapC8 rfl).1
      false rfl,
   (C8_ignore_unknown_instances_flag extA {} ppProj "root" nodeB none snapB rfl).2.1
      rfl rfl,
   (C8_ignore_unknown_instances_flag extA {} ppProj "A" nodeA none snapA rfl).2.2.1
      folderProj (.required pRel) fsSnapA rfl rfl rfl rfl⟩

/-- C9: when the top-level entry point yields a snapshot, the returned
root snapshot is the recursively resolved one with its instigating source
overridden to `FilePath(project_file_path)` and the project file path
appended to its relevant-paths list; everything outside the metadata is
unchanged. -/
theorem C9_root_instigating_source_override (ext : Externals)
    (loader : FsPath → Except String Project) (ctx : InstanceContext) (path : FsPath)
    (project : Project) (snap : InstanceSnapshot)
    (hload : loader path = .ok project)
    (hnode : snapshot_project_node ext
        ⟨ctx.pathIgnoreRules ++ project.globIgnorePaths.map
          (fun glob => PathIgnoreRule.mk glob project.folderLocation)⟩
        path project.name project.tree none = .ok (some snap)) :
    ∃ root, snapshot_project ext loader ctx path = .ok (some root)
      ∧ root.metadata.instigatingSource = some (.filePath path)
      ∧ root.metadata.relevantPaths = snap.metadata.relevantPaths ++ [path]
      ∧ root.withMetadata snap.metadata = snap := by
  unfold snapshot_project
  rw [hload]
  dsimp only
  rw [hnode]
  refine ⟨_, rfl, ?_, ?_, ?_⟩ <;> cases snap <;> rfl

/-- Witness for C9: the fixture project resolves, and the root snapshot's
provenance is the project file path with the path appended to the
relevant paths. -/
theorem C9_root_instigating_source_override_witness :
    ∃ root, snapshot_project extA loaderW {} ppProj = .ok (some root)
      ∧ root.metadata.instigatingSource = some (.filePath ppProj)
      ∧ root.metadata.relevantPaths = snapB.metadata.relevantPaths ++ [ppProj]
      ∧ root.withMetadata snapB.metadata = snapB :=
  C9_root_instigating_source_override extA loaderW {} ppProj projW snapB rfl rfl

/-- C10: `snapshot_project_node` unconditionally unwraps
`project_path.parent()`: for a project path with no parent component every
call panics, and for a path with a parent directory no call panics. -/
theorem C10_parent_unwrap_panic :
    (∀ (ext : Externals) (ctx : InstanceContext) (pp : FsPath) (inst : String)
        (node : ProjectNode) (pc : Option String),
        pp.parent = none →
        snapshot_project_node ext ctx pp inst node pc = .panicked)
    ∧ (∀ (ext : Externals) (ctx : InstanceContext) (pp folder : FsPath) (inst : String)
        (node : ProjectNode) (pc : Option String),
        pp.parent = some folder →
        snapshot_project_node ext ctx pp inst node pc ≠ .panicked) := by
  constructor
  · intro ext ctx pp inst node pc h
    obtain ⟨cn, npath, nprops, nchilds, nign⟩ := node
    unfold snapshot_project_node
    rw [h]
  · intro ext ctx pp folder inst node pc h
    exact snapshot_node_no_panic ext ctx pp inst node pc folder h

/-- Witness for C10: the root path `/` has no parent and every call on it
panics; a path inside a directory never panics. -/
theorem C10_parent_unwrap_panic_witness :
    ((FsPath.mk true []).parent = none)
    ∧ snapshot_project_node extNone {} (FsPath.mk true []) "X" nodeB none = .panicked
    ∧ snapshot_project_node extNone {} ppProj "X" nodeB none ≠ .panicked :=
  ⟨rfl,
   C10_parent_unwrap_panic.1 extNone {} (FsPath.mk true []) "X" nodeB none rfl,
   C10_parent_unwrap_panic.2 extNone {} ppProj folderProj "X" nodeB none rfl⟩
